import Mathlib

/-!
Verification development for the object-detection service: a FastAPI
endpoint (`backend/api/main.py`) that validates an uploaded image, hands
it to a vision-language model wrapper (`backend/object_detection/qwen.py`),
and extracts a JSON array of detections from the model's free-form reply.

The embedding models:
  - the CPython `json.loads` strict decoder (values as a `Json` inductive,
    numbers kept as their source lexemes);
  - the two concrete regular-expression searches used by
    `parse_objects_from_response`;
  - `run_object_detection` over an abstract environment describing the
    outcomes of the external model-library calls;
  - the `detect_objects` HTTP handler, with a filesystem/inference event
    trace recording the temporary-file lifecycle.
-/

/-- Json values as produced by the CPython `json.loads` decoder. Numbers
are kept as their source lexemes (the decoder's float/int normalisation is
irrelevant to the properties below); objects keep their member list in
parse order. -/
inductive Json where
  | null : Json
  | bool (b : Bool) : Json
  | num (lit : String) : Json
  | str (s : String) : Json
  | arr (elems : List Json) : Json
  | obj (members : List (String × Json)) : Json

/-- Whitespace accepted between JSON tokens by the CPython decoder. -/
def isJsonWs (c : Char) : Bool :=
  c = ' ' || c = '\t' || c = '\n' || c = '\r'

/-- Opening brace character, written via its code point. -/
def lbrace : Char := Char.ofNat 123

/-- Closing brace character, written via its code point. -/
def rbrace : Char := Char.ofNat 125

/-- Hexadecimal digit test for `\u` escapes. -/
def isHexDig (c : Char) : Bool :=
  ('0' ≤ c && c ≤ '9') || ('a' ≤ c && c ≤ 'f') || ('A' ≤ c && c ≤ 'F')

/-- Value of a hexadecimal digit. -/
def hexVal (c : Char) : Nat :=
  if '0' ≤ c && c ≤ '9' then c.toNat - 48
  else if 'a' ≤ c && c ≤ 'f' then c.toNat - 87
  else if 'A' ≤ c && c ≤ 'F' then c.toNat - 55
  else 0

/-- Single-character string escapes accepted by the decoder. -/
def escChar : Char → Option Char
  | '"' => some '"'
  | '\\' => some '\\'
  | '/' => some '/'
  | 'b' => some (Char.ofNat 8)
  | 'f' => some (Char.ofNat 12)
  | 'n' => some '\n'
  | 'r' => some '\r'
  | 't' => some '\t'
  | _ => none

/-- Scan the body of a JSON string (the opening quote already consumed),
returning the decoded characters and the rest of the input. Mirrors the
strict `py_scanstring`: unescaped control characters are rejected, `\u`
needs four hex digits. -/
def lexStringAux : List Char → Option (List Char × List Char)
  | [] => none
  | '"' :: rest => some ([], rest)
  | '\\' :: 'u' :: a :: b :: c :: d :: rest =>
    if isHexDig a && isHexDig b && isHexDig c && isHexDig d then
      match lexStringAux rest with
      | some (cs, r) =>
        some (Char.ofNat (hexVal a * 4096 + hexVal b * 256 + hexVal c * 16 + hexVal d) :: cs, r)
      | none => none
    else none
  | '\\' :: e :: rest =>
    match escChar e with
    | some ce =>
      match lexStringAux rest with
      | some (cs, r) => some (ce :: cs, r)
      | none => none
    | none => none
  | c :: rest =>
    if c.toNat < 32 then none
    else
      match lexStringAux rest with
      | some (cs, r) => some (c :: cs, r)
      | none => none

/-- Scan a JSON string body into a `String`. -/
def lexString (s : List Char) : Option (String × List Char) :=
  match lexStringAux s with
  | some (cs, r) => some (String.mk cs, r)
  | none => none

/-- Integer part of a JSON number: `0` or a nonzero digit followed by
digits, as in the decoder's NUMBER_RE. -/
def lexIntPart : List Char → Option (List Char × List Char)
  | [] => none
  | c :: rest =>
    if c = '0' then some (['0'], rest)
    else if c.isDigit then
      some (c :: rest.takeWhile Char.isDigit, rest.dropWhile Char.isDigit)
    else none

/-- Optional fraction part `.digits`; consumed only when complete. -/
def lexFracPart : List Char → List Char × List Char
  | '.' :: c :: rest =>
    if c.isDigit then
      ('.' :: c :: rest.takeWhile Char.isDigit, rest.dropWhile Char.isDigit)
    else ([], '.' :: c :: rest)
  | s => ([], s)

/-- Optional exponent part `[eE][+-]?digits`; consumed only when complete. -/
def lexExpPart (s : List Char) : List Char × List Char :=
  match s with
  | e :: rest =>
    if e = 'e' || e = 'E' then
      match rest with
      | sgn :: rest2 =>
        if sgn = '+' || sgn = '-' then
          match rest2 with
          | d :: _ =>
            if d.isDigit then
              (e :: sgn :: rest2.takeWhile Char.isDigit, rest2.dropWhile Char.isDigit)
            else ([], s)
          | [] => ([], s)
        else if sgn.isDigit then
          (e :: rest.takeWhile Char.isDigit, rest.dropWhile Char.isDigit)
        else ([], s)
      | [] => ([], s)
    else ([], s)
  | [] => ([], s)

/-- Scan a JSON number lexeme, as matched by the decoder's NUMBER_RE
`-?(0|[1-9]\d*)(\.\d+)?([eE][-+]?\d+)?`. -/
def lexNumber (s : List Char) : Option (String × List Char) :=
  let (neg, s1) :=
    match s with
    | '-' :: r => (true, r)
    | _ => (false, s)
  match lexIntPart s1 with
  | none => none
  | some (ip, r1) =>
    let (fp, r2) := lexFracPart r1
    let (ep, r3) := lexExpPart r2
    some (String.mk ((if neg then ['-'] else []) ++ ip ++ fp ++ ep), r3)

/-- Literal token lists used by the value scanner. -/
def nullLit : List Char := "null".toList

/-- Literal token list for `true`. -/
def trueLit : List Char := "true".toList

/-- Literal token list for `false`. -/
def falseLit : List Char := "false".toList

/-- Literal token list for the `NaN` constant accepted by `json.loads`. -/
def nanLit : List Char := "NaN".toList

/-- Literal token list for the `Infinity` constant. -/
def infLit : List Char := "Infinity".toList

/-- Literal token list for the `-Infinity` constant. -/
def ninfLit : List Char := "-Infinity".toList

/-- Parsing task: a JSON value, the inside of an array (just after `[`),
the tail of an array after at least one element, the inside of an object
(just after the opening brace), or the members of an object starting at a
key. -/
inductive PTask where
  | value (s : List Char)
  | arrStart (s : List Char)
  | arrTail (acc : List Json) (s : List Char)
  | objStart (s : List Char)
  | objTail (acc : List (String × Json)) (s : List Char)

/-- Fuel-indexed recursive descent parser mirroring the CPython
`json.scanner.py_make_scanner` dispatch: string, object, array, `null`,
`true`, `false`, number regex, then `NaN` / `Infinity` / `-Infinity`.
The fuel only bounds nesting-driven recursion; `json_loads` supplies more
than enough for any input. -/
def parseAux : Nat → PTask → Except String (Json × List Char)
  | 0, _ => Except.error "Maximum recursion depth exceeded"
  | Nat.succ fuel, PTask.value s =>
    let s1 := s.dropWhile isJsonWs
    match s1 with
    | [] => Except.error "Expecting value"
    | c :: rest =>
      if c = '"' then
        match lexString rest with
        | some (lit, r) => Except.ok (Json.str lit, r)
        | none => Except.error "Unterminated string"
      else if c = lbrace then parseAux fuel (PTask.objStart rest)
      else if c = '[' then parseAux fuel (PTask.arrStart rest)
      else if nullLit.isPrefixOf s1 then Except.ok (Json.null, s1.drop 4)
      else if trueLit.isPrefixOf s1 then Except.ok (Json.bool true, s1.drop 4)
      else if falseLit.isPrefixOf s1 then Except.ok (Json.bool false, s1.drop 5)
      else
        match lexNumber s1 with
        | some (lit, r) => Except.ok (Json.num lit, r)
        | none =>
          if nanLit.isPrefixOf s1 then Except.ok (Json.num "NaN", s1.drop 3)
          else if infLit.isPrefixOf s1 then Except.ok (Json.num "Infinity", s1.drop 8)
          else if ninfLit.isPrefixOf s1 then Except.ok (Json.num "-Infinity", s1.drop 9)
          else Except.error "Expecting value"
  | Nat.succ fuel, PTask.arrStart s =>
    let s1 := s.dropWhile isJsonWs
    match s1 with
    | ']' :: r => Except.ok (Json.arr [], r)
    | _ =>
      match parseAux fuel (PTask.value s1) with
      | Except.ok (v, r) => parseAux fuel (PTask.arrTail [v] r)
      | Except.error e => Except.error e
  | Nat.succ fuel, PTask.arrTail acc s =>
    match s.dropWhile isJsonWs with
    | ']' :: r => Except.ok (Json.arr acc, r)
    | ',' :: r =>
      match parseAux fuel (PTask.value r) with
      | Except.ok (v, r2) => parseAux fuel (PTask.arrTail (acc ++ [v]) r2)
      | Except.error e => Except.error e
    | _ => Except.error "Expecting comma delimiter"
  | Nat.succ fuel, PTask.objStart s =>
    let s1 := s.dropWhile isJsonWs
    match s1 with
    | [] => Except.error "Expecting property name enclosed in double quotes"
    | c :: _ =>
      if c = rbrace then Except.ok (Json.obj [], s1.tail)
      else parseAux fuel (PTask.objTail [] s1)
  | Nat.succ fuel, PTask.objTail acc s =>
    match s.dropWhile isJsonWs with
    | [] => Except.error "Expecting property name enclosed in double quotes"
    | c :: r =>
      if c = '"' then
        match lexString r with
        | some (key, r1) =>
          match r1.dropWhile isJsonWs with
          | ':' :: r2 =>
            match parseAux fuel (PTask.value r2) with
            | Except.ok (v, r3) =>
              match r3.dropWhile isJsonWs with
              | ',' :: r4 => parseAux fuel (PTask.objTail (acc ++ [(key, v)]) r4)
              | c2 :: r4 =>
                if c2 = rbrace then Except.ok (Json.obj (acc ++ [(key, v)]), r4)
                else Except.error "Expecting comma delimiter"
              | [] => Except.error "Expecting comma delimiter"
            | Except.error e => Except.error e
          | _ => Except.error "Expecting colon delimiter"
        | none => Except.error "Unterminated string"
      else Except.error "Expecting property name enclosed in double quotes"

/-- Model of Python's `json.loads`: decode one value, then require only
trailing whitespace, as `json.decoder.JSONDecoder.decode` does. -/
def json_loads (s : String) : Except String Json :=
  let cs := s.toList
  match parseAux (2 * cs.length + 2) (PTask.value cs) with
  | Except.ok (v, rest) =>
    if rest.dropWhile isJsonWs = [] then Except.ok v
    else Except.error "Extra data"
  | Except.error e => Except.error e

/-- Whitespace class of Python's `\s` over ASCII text: space, tab,
newline, carriage return, vertical tab, form feed. -/
def isReSpace (c : Char) : Bool :=
  c = ' ' || c = '\t' || c = '\n' || c = '\r' || c = Char.ofNat 11 || c = Char.ofNat 12

/-- Characters of the literal opening fence of the first regex. -/
def fenceOpen : List Char := "```json".toList

/-- Characters of the closing fence. -/
def fenceClose : List Char := "```".toList

/-- Does a closing fence follow, after the greedy `\s*` of the pattern? -/
def isFenceAfter (s : List Char) : Bool :=
  fenceClose.isPrefixOf (s.dropWhile isReSpace)

/-- Characters matched by the lazy `.*?` (DOTALL) of
`` ```json\s*(\[.*?\])\s*``` ``: the shortest run such that the next
character is `]` followed (after `\s*`) by a closing fence. Returns
`none` when no such closing exists. -/
def fencedMiddle : List Char → Option (List Char)
  | [] => none
  | c :: rest =>
    if c = ']' && isFenceAfter rest then some []
    else
      match fencedMiddle rest with
      | some m => some (c :: m)
      | none => none

/-- Model of `re.search(r"```json\s*(\[.*?\])\s*```", text, re.DOTALL)`,
returning `group(1)` of the leftmost match: scan start positions left to
right; at a position where the literal fence matches, the greedy `\s*`
must be followed by `[`, and the lazy middle must find a closing
`]\s*` fence. -/
def fencedSearchList : List Char → Option (List Char)
  | [] => none
  | c :: rest =>
    if fenceOpen.isPrefixOf (c :: rest) then
      match ((c :: rest).drop 7).dropWhile isReSpace with
      | '[' :: tail =>
        match fencedMiddle tail with
        | some mid => some ('[' :: (mid ++ [']']))
        | none => fencedSearchList rest
      | _ => fencedSearchList rest
    else fencedSearchList rest

/-- Characters matched by the lazy `.*?` (no DOTALL) of `\[.*?\]`: the
shortest run of non-newline characters before a `]`. -/
def bareMiddle : List Char → Option (List Char)
  | [] => none
  | c :: rest =>
    if c = ']' then some []
    else if c = '\n' then none
    else
      match bareMiddle rest with
      | some m => some (c :: m)
      | none => none

/-- Model of `re.search(r"\[.*?\]", text)`, returning `group(0)` of the
leftmost match. -/
def bareSearchList : List Char → Option (List Char)
  | [] => none
  | c :: rest =>
    if c = '[' then
      match bareMiddle rest with
      | some mid => some ('[' :: (mid ++ [']']))
      | none => bareSearchList rest
    else bareSearchList rest

/-- String-level wrapper for the fenced-array regex search. -/
def fencedSearch (t : String) : Option String :=
  match fencedSearchList t.toList with
  | some g => some (String.mk g)
  | none => none

/-- String-level wrapper for the bare-bracket regex search. -/
def bareSearch (t : String) : Option String :=
  match bareSearchList t.toList with
  | some g => some (String.mk g)
  | none => none

/-- Result of `json.loads` on a matched bracket-delimited group, as the
list the Python caller treats it as. A successful parse of text starting
with `[` is always an array, so the non-array success branch is
unreachable for the groups produced by the two searches. -/
def loads_bracket (g : String) : Except String (List Json) :=
  match json_loads g with
  | Except.ok (Json.arr l) => Except.ok l
  | Except.ok _ => Except.ok []
  | Except.error e => Except.error e

/-- Value of one `return json.loads(...)` attempt as observed through the
enclosing `try`/`except` of `parse_objects_from_response`: the parsed
list, or the empty list when the JSON parse raises. -/
def loads_or_empty (g : String) : List Json :=
  match loads_bracket g with
  | Except.ok l => l
  | Except.error _ => []

/-- Model of `parse_objects_from_response` (qwen.py): search for a fenced
JSON array; when the fenced pattern matches, parse that group; otherwise
search for a bare bracket-delimited substring and parse it; otherwise
return the empty list. A parse failure inside the `try` yields the empty
list without falling through to the second strategy. -/
def parse_objects_from_response (response_text : String) : List Json :=
  match fencedSearch response_text with
  | some g => loads_or_empty g
  | none =>
    match bareSearch response_text with
    | some g => loads_or_empty g
    | none => []

/-- First matching strategy of the extraction step: the fenced group when
that pattern matches, otherwise the bare group. -/
def firstStrategyMatch (t : String) : Option String :=
  match fencedSearch t with
  | some g => some g
  | none => bareSearch t

/-- Exception classes that `json.loads` can raise on the matched text.
The `except` clause of `parse_objects_from_response` catches only
`json.JSONDecodeError` (and `AttributeError`, which cannot occur since
`group` is only called on a successful match); `RecursionError` from
deeply nested containers and `ValueError` from the integer-string digit
limit escape the function. -/
inductive PyExc where
  | jsonDecodeError (msg : String) : PyExc
  | recursionError : PyExc
  | valueError (msg : String) : PyExc

/-- Default CPython recursion limit (`sys.getrecursionlimit()`), which
bounds the scanner's nested-container depth. The exact raise point in a
running interpreter depends on the stack already consumed, but any
nesting at least this deep raises `RecursionError`. -/
def recursionLimit : Nat := 1000

/-- Default CPython limit on digits in an integer-string conversion
(`sys.get_int_max_str_digits()`, Python 3.11+), enforced when the decoder
converts an integer lexeme; fraction or exponent parts make the lexeme a
float, which is exempt. -/
def intMaxStrDigits : Nat := 4300

/-- Exception-aware variant of the scanner: identical grammar to
`parseAux`, with decode failures tagged `jsonDecodeError`, a nesting
budget (second argument) modelling the interpreter recursion limit, and
the integer digit limit raised as `valueError`. The first argument is
plain termination fuel; `json_loads_exc` supplies more than any input
can consume, so its exhaustion branch is unreachable. -/
def parseAuxExc : Nat → Nat → PTask → Except PyExc (Json × List Char)
  | 0, _, _ => Except.error PyExc.recursionError
  | Nat.succ fuel, depth, PTask.value s =>
    let s1 := s.dropWhile isJsonWs
    match s1 with
    | [] => Except.error (PyExc.jsonDecodeError "Expecting value")
    | c :: rest =>
      if c = '"' then
        match lexString rest with
        | some (lit, r) => Except.ok (Json.str lit, r)
        | none => Except.error (PyExc.jsonDecodeError "Unterminated string")
      else if c = lbrace then
        if depth = 0 then Except.error PyExc.recursionError
        else parseAuxExc fuel (depth - 1) (PTask.objStart rest)
      else if c = '[' then
        if depth = 0 then Except.error PyExc.recursionError
        else parseAuxExc fuel (depth - 1) (PTask.arrStart rest)
      else if nullLit.isPrefixOf s1 then Except.ok (Json.null, s1.drop 4)
      else if trueLit.isPrefixOf s1 then Except.ok (Json.bool true, s1.drop 4)
      else if falseLit.isPrefixOf s1 then Except.ok (Json.bool false, s1.drop 5)
      else
        match s1 with
        | '-' :: sN =>
          match lexIntPart sN with
          | some (ip, r1) =>
            let (fp, r2) := lexFracPart r1
            let (ep, r3) := lexExpPart r2
            if fp.isEmpty && ep.isEmpty && intMaxStrDigits < ip.length then
              Except.error (PyExc.valueError
                "Exceeds the limit (4300 digits) for integer string conversion")
            else Except.ok (Json.num (String.mk ('-' :: (ip ++ fp ++ ep))), r3)
          | none =>
            if ninfLit.isPrefixOf s1 then Except.ok (Json.num "-Infinity", s1.drop 9)
            else Except.error (PyExc.jsonDecodeError "Expecting value")
        | _ =>
          match lexIntPart s1 with
          | some (ip, r1) =>
            let (fp, r2) := lexFracPart r1
            let (ep, r3) := lexExpPart r2
            if fp.isEmpty && ep.isEmpty && intMaxStrDigits < ip.length then
              Except.error (PyExc.valueError
                "Exceeds the limit (4300 digits) for integer string conversion")
            else Except.ok (Json.num (String.mk (ip ++ fp ++ ep)), r3)
          | none =>
            if nanLit.isPrefixOf s1 then Except.ok (Json.num "NaN", s1.drop 3)
            else if infLit.isPrefixOf s1 then Except.ok (Json.num "Infinity", s1.drop 8)
            else Except.error (PyExc.jsonDecodeError "Expecting value")
  | Nat.succ fuel, depth, PTask.arrStart s =>
    let s1 := s.dropWhile isJsonWs
    match s1 with
    | ']' :: r => Except.ok (Json.arr [], r)
    | _ =>
      match parseAuxExc fuel depth (PTask.value s1) with
      | Except.ok (v, r) => parseAuxExc fuel depth (PTask.arrTail [v] r)
      | Except.error e => Except.error e
  | Nat.succ fuel, depth, PTask.arrTail acc s =>
    match s.dropWhile isJsonWs with
    | ']' :: r => Except.ok (Json.arr acc, r)
    | ',' :: r =>
      match parseAuxExc fuel depth (PTask.value r) with
      | Except.ok (v, r2) => parseAuxExc fuel depth (PTask.arrTail (acc ++ [v]) r2)
      | Except.error e => Except.error e
    | _ => Except.error (PyExc.jsonDecodeError "Expecting comma delimiter")
  | Nat.succ fuel, depth, PTask.objStart s =>
    let s1 := s.dropWhile isJsonWs
    match s1 with
    | [] => Except.error (PyExc.jsonDecodeError
        "Expecting property name enclosed in double quotes")
    | c :: _ =>
      if c = rbrace then Except.ok (Json.obj [], s1.tail)
      else parseAuxExc fuel depth (PTask.objTail [] s1)
  | Nat.succ fuel, depth, PTask.objTail acc s =>
    match s.dropWhile isJsonWs with
    | [] => Except.error (PyExc.jsonDecodeError
        "Expecting property name enclosed in double quotes")
    | c :: r =>
      if c = '"' then
        match lexString r with
        | some (key, r1) =>
          match r1.dropWhile isJsonWs with
          | ':' :: r2 =>
            match parseAuxExc fuel depth (PTask.value r2) with
            | Except.ok (v, r3) =>
              match r3.dropWhile isJsonWs with
              | ',' :: r4 => parseAuxExc fuel depth (PTask.objTail (acc ++ [(key, v)]) r4)
              | c2 :: r4 =>
                if c2 = rbrace then Except.ok (Json.obj (acc ++ [(key, v)]), r4)
                else Except.error (PyExc.jsonDecodeError "Expecting comma delimiter")
              | [] => Except.error (PyExc.jsonDecodeError "Expecting comma delimiter")
            | Except.error e => Except.error e
          | _ => Except.error (PyExc.jsonDecodeError "Expecting colon delimiter")
        | none => Except.error (PyExc.jsonDecodeError "Unterminated string")
      else Except.error (PyExc.jsonDecodeError
        "Expecting property name enclosed in double quotes")

/-- Model of `json.loads` with its exception classes distinguished:
decode failures (including the top-level "Extra data" check) raise
`JSONDecodeError`; nesting beyond the recursion limit raises
`RecursionError`; an oversized integer lexeme raises `ValueError`. -/
def json_loads_exc (s : String) : Except PyExc Json :=
  let cs := s.toList
  match parseAuxExc (2 * cs.length + 2) recursionLimit (PTask.value cs) with
  | Except.ok (v, rest) =>
    if rest.dropWhile isJsonWs = [] then Except.ok v
    else Except.error (PyExc.jsonDecodeError "Extra data")
  | Except.error e => Except.error e

/-- One `return json.loads(...)` attempt as observed through the
enclosing `except (json.JSONDecodeError, AttributeError)`: a successful
parse returns the list, a `JSONDecodeError` is caught and yields the
empty list, and any other exception escapes. -/
def loads_attempt_exc (g : String) : Except PyExc (List Json) :=
  match json_loads_exc g with
  | Except.ok (Json.arr l) => Except.ok l
  | Except.ok _ => Except.ok []
  | Except.error (PyExc.jsonDecodeError _) => Except.ok []
  | Except.error e => Except.error e

/-- Exception-aware model of `parse_objects_from_response` (qwen.py):
the same two-strategy dispatch, with `Except.error` marking an exception
propagating out of the function because the `except` clause does not
catch it. -/
def parse_objects_from_response_exc (response_text : String) :
    Except PyExc (List Json) :=
  match fencedSearch response_text with
  | some g => loads_attempt_exc g
  | none =>
    match bareSearch response_text with
    | some g => loads_attempt_exc g
    | none => Except.ok []

/-- Result model of `run_object_detection` (qwen.py), mirroring the
pydantic `ObjectDetectionResult` with its optional fields defaulting to
`None`. -/
structure ObjectDetectionResult where
  success : Bool
  objects : Option (List Json) := none
  response_text : Option String := none
  error_message : Option String := none

/-- Generation parameters handed from the endpoint to
`run_object_detection`: prompt text, token budget and sampling
temperature. The temperature is an exact rational; no floating-point
arithmetic is performed on it anywhere in the code. -/
structure GenParams where
  prompt : String
  max_tokens : Nat
  temperature : Rat

/-- Abstract environment for the external `mlx_vlm` calls made by
`run_object_detection`: the outcome of `load` (model and processor), the
outcome of the uncaught middle section (`load_config` and
`apply_chat_template`, whose exceptions reach the outer handler), and the
outcome of `generate` as a function of the generation parameters. The
image and the model repository name are absorbed into the environment. -/
structure DetectionEnv where
  loadResult : Except String Unit
  configResult : Except String Unit
  generateResult : GenParams → Except String String

/-- Model of `run_object_detection` (qwen.py): load the model, build the
prompt, generate, then parse the response. Each failure region is mapped
to a `success := false` result carrying the exception text under the
prefix its handler uses; a successful generation parses the response text
with `parse_objects_from_response`. -/
def run_object_detection (env : DetectionEnv) (p : GenParams) : ObjectDetectionResult :=
  match env.loadResult with
  | Except.error e =>
    { success := false, error_message := some ("Error loading model: " ++ e) }
  | Except.ok _ =>
    match env.configResult with
    | Except.error e =>
      { success := false, error_message := some ("Error during object detection: " ++ e) }
    | Except.ok _ =>
      match env.generateResult p with
      | Except.error e =>
        { success := false, error_message := some ("Error during generation: " ++ e) }
      | Except.ok response_text =>
        { success := true,
          objects := some (parse_objects_from_response response_text),
          response_text := some response_text }

/-- Upload model for the endpoint: the request's content type (as
`UploadFile.content_type`, absent for a missing header) and the outcome
of `Image.open` plus `image.verify()` on the uploaded bytes. -/
structure UploadFile where
  content_type : Option String
  decodeResult : Except String Unit

/-- Request model of the endpoint (main.py `ObjectDetectionRequest`) with
its declared defaults. -/
structure ObjectDetectionRequest where
  prompt : String :=
    "detect all the objects like sunglasses, shirts, trousers or watches in the image"
  max_tokens : Nat := 1000
  temperature : Rat := 0.7

/-- Response model of the endpoint (main.py `ObjectDetectionResponse`). -/
structure ObjectDetectionResponse where
  success : Bool
  objects : Option (List Json) := none
  response_text : Option String := none
  error_message : Option String := none

/-- Observable events of a handler run: writing the uploaded bytes to the
temporary file, invoking the detection pipeline with the given
parameters, and unlinking the temporary file. The list order is the
temporal order. -/
inductive FsEvent where
  | writeTemp : FsEvent
  | inference (p : GenParams) : FsEvent
  | deleteTemp : FsEvent

/-- Outcome of the handler: an `HTTPException` escaping with a status and
detail, or a normal 200 response with an `ObjectDetectionResponse`
payload. -/
inductive HandlerOutcome where
  | httpError (status : Nat) (detail : String) : HandlerOutcome
  | ok (resp : ObjectDetectionResponse) : HandlerOutcome

/-- Model of Python's `str.startswith`: prefix test on the character
sequences. -/
def startswith (s pre : String) : Bool :=
  pre.toList.isPrefixOf s.toList

/-- Model of the `detect_objects` handler (main.py): reject a missing or
non-`image/` content type with HTTP 400, reject an undecodable image with
HTTP 400, otherwise write the bytes to a temporary file, run the
detection pipeline, translate its result into the response payload, and
unlink the temporary file (the `finally` block) before returning. The
second component is the event trace of the run. -/
def detect_objects (env : DetectionEnv) (file : UploadFile)
    (request : ObjectDetectionRequest) : HandlerOutcome × List FsEvent :=
  match file.content_type with
  | none => (HandlerOutcome.httpError 400 "File must be an image", [])
  | some ct =>
    if startswith ct "image/" then
      match file.decodeResult with
      | Except.error e =>
        (HandlerOutcome.httpError 400 ("Invalid image file: " ++ e), [])
      | Except.ok _ =>
        let p : GenParams :=
          { prompt := request.prompt, max_tokens := request.max_tokens,
            temperature := request.temperature }
        let result := run_object_detection env p
        let events := [FsEvent.writeTemp, FsEvent.inference p, FsEvent.deleteTemp]
        if result.success then
          (HandlerOutcome.ok
            { success := true, objects := result.objects,
              response_text := result.response_text }, events)
        else
          (HandlerOutcome.ok
            { success := false, error_message := result.error_message }, events)
    else (HandlerOutcome.httpError 400 "File must be an image", [])

/-- Lookup of a member in a parsed JSON object, with the Python `dict`
semantics that a duplicated key keeps its last value. -/
def lookupMember (key : String) : List (String × Json) → Option Json
  | [] => none
  | (k, v) :: rest =>
    match lookupMember key rest with
    | some w => some w
    | none => if k = key then some v else none

/-- Number test on a JSON value. -/
def isJsonNumber : Json → Bool
  | Json.num _ => true
  | _ => false

/-- Bounding box in the sense of the specification glossary: an array of
exactly four coordinates. -/
def isBBox2d : Json → Bool
  | Json.arr [a, b, c, d] =>
    isJsonNumber a && isJsonNumber b && isJsonNumber c && isJsonNumber d
  | _ => false

/-- Detection record in the sense of the specification: an object with a
string label under `object` and a four-coordinate bounding box under
`bbox_2d`. This predicate follows the specification's words; the code
performs no such validation. -/
def isDetectionRecord : Json → Bool
  | Json.obj members =>
    (match lookupMember "object" members with
     | some (Json.str _) => true
     | _ => false) &&
    (match lookupMember "bbox_2d" members with
     | some b => isBBox2d b
     | none => false)
  | _ => false

/-- Environment in which every external call succeeds and the model
replies with a fixed fenced empty array. -/
def envOk : DetectionEnv :=
  { loadResult := Except.ok (), configResult := Except.ok (),
    generateResult := fun _ => Except.ok "```json [] ```" }

/-- Environment whose model load fails. -/
def envLoadFail : DetectionEnv :=
  { loadResult := Except.error "model not found",
    configResult := Except.ok (),
    generateResult := fun _ => Except.ok "" }

/-- Upload with a missing content type. -/
def fileNoType : UploadFile :=
  { content_type := none, decodeResult := Except.ok () }

/-- Upload with an image content type whose bytes do not decode. -/
def fileBadBytes : UploadFile :=
  { content_type := some "image/png",
    decodeResult := Except.error "cannot identify image file" }

/-- Upload passing both validations. -/
def fileGood : UploadFile :=
  { content_type := some "image/jpeg", decodeResult := Except.ok () }

/-- C1: the extraction step applies exactly two ordered strategies: when
the fenced `json` pattern matches, the parse of its bracketed group is
returned (with no fallback to the second pattern), only when it does not
match is the bare bracket pattern searched and its match parsed, and when
neither matches the result is the empty list. -/
theorem c1_extraction_dispatch (t : String) :
    (∀ g, fencedSearch t = some g →
      parse_objects_from_response t = loads_or_empty g) ∧
    (fencedSearch t = none → ∀ g, bareSearch t = some g →
      parse_objects_from_response t = loads_or_empty g) ∧
    (fencedSearch t = none → bareSearch t = none →
      parse_objects_from_response t = []) := by
  refine ⟨?_, ?_, ?_⟩
  · intro g hg
    simp [parse_objects_from_response, hg]
  · intro hf g hg
    simp [parse_objects_from_response, hf, hg]
  · intro hf hb
    simp [parse_objects_from_response, hf, hb]

/-- Witness for C1 on a fenced response. -/
theorem c1_extraction_dispatch_witness :
    parse_objects_from_response "```json [1] ```" = [Json.num "1"] :=
  ((c1_extraction_dispatch "```json [1] ```").1 "[1]" rfl).trans rfl

/-- Helper: unfolding equation of the list prefix test on two cons cells. -/
theorem isPrefixOf_cons_cons (a b : Char) (as bs : List Char) :
    List.isPrefixOf (a :: as) (b :: bs) = (a == b && List.isPrefixOf as bs) := rfl

/-- Helper: the fenced-array pattern cannot match a text with no backtick. -/
theorem fencedSearchList_eq_none (s : List Char) (h : Char.ofNat 96 ∉ s) :
    fencedSearchList s = none := by
  induction s with
  | nil => rfl
  | cons c rest ih =>
    have hc : fenceOpen.isPrefixOf (c :: rest) = false := by
      rw [show fenceOpen = Char.ofNat 96 :: "``json".toList from rfl,
        isPrefixOf_cons_cons]
      have : (Char.ofNat 96 == c) = false :=
        beq_eq_false_iff_ne.mpr (fun hh => h (hh ▸ List.mem_cons_self c rest))
      simp [this]
    simp only [fencedSearchList, hc, Bool.false_eq_true, if_false]
    exact ih (fun hm => h (List.mem_cons_of_mem _ hm))

/-- Helper: the lazy middle of the bare pattern over a run of one
repeated ordinary character stops at the closing bracket. -/
theorem bareMiddle_replicate (c : Char) (hc1 : c ≠ ']') (hc2 : c ≠ '\n')
    (n : Nat) :
    bareMiddle (List.replicate n c ++ [']']) = some (List.replicate n c) := by
  induction n with
  | zero => simp [bareMiddle]
  | succ m ih =>
    rw [List.replicate_succ, List.cons_append]
    simp [bareMiddle, hc1, hc2, ih]

/-- Helper: a digit run before a closing bracket is taken whole. -/
theorem takeWhile_digit_replicate (n : Nat) :
    List.takeWhile Char.isDigit (List.replicate n '1' ++ [']']) =
      List.replicate n '1' := by
  induction n with
  | zero => simp [List.takeWhile]
  | succ m ih =>
    rw [List.replicate_succ, List.cons_append]
    simp [List.takeWhile_cons, ih]

/-- Helper: dropping a digit run before a closing bracket leaves the
bracket. -/
theorem dropWhile_digit_replicate (n : Nat) :
    List.dropWhile Char.isDigit (List.replicate n '1' ++ [']']) = [']'] := by
  induction n with
  | zero => simp [List.dropWhile]
  | succ m ih =>
    rw [List.replicate_succ, List.cons_append]
    simp [List.dropWhile_cons, ih]

/-- Helper: the integer-part lexer consumes a whole digit run. -/
theorem lexIntPart_digits (m : Nat) :
    lexIntPart (List.replicate (m + 1) '1' ++ [']']) =
      some (List.replicate (m + 1) '1', [']']) := by
  rw [List.replicate_succ, List.cons_append]
  simp [lexIntPart, takeWhile_digit_replicate, dropWhile_digit_replicate,
    List.replicate_succ]

/-- Helper: scanning `[1…1]` whose digit run exceeds the integer digit
limit raises the conversion `ValueError`, for any sufficient fuel and any
non-exhausted nesting budget. -/
theorem topValue_digit_overflow (fuel depth m : Nat)
    (h : intMaxStrDigits < m + 1) (hd : depth ≠ 0) :
    parseAuxExc (fuel + 3) depth
      (PTask.value ('[' :: (List.replicate (m + 1) '1' ++ [']']))) =
      Except.error (PyExc.valueError
        "Exceeds the limit (4300 digits) for integer string conversion") := by
  have hcons : List.replicate (m + 1) '1' ++ [']'] =
      '1' :: (List.replicate m '1' ++ [']']) := by
    rw [List.replicate_succ, List.cons_append]
  rw [show fuel + 3 = Nat.succ (fuel + 2) from rfl, hcons]
  simp only [parseAuxExc]
  have hdw1 : List.dropWhile isJsonWs
      ('[' :: ('1' :: (List.replicate m '1' ++ [']']))) =
      '[' :: ('1' :: (List.replicate m '1' ++ [']'])) := by
    simp [List.dropWhile_cons, isJsonWs]
  have hdw2 : List.dropWhile isJsonWs ('1' :: (List.replicate m '1' ++ [']'])) =
      '1' :: (List.replicate m '1' ++ [']']) := by
    simp [List.dropWhile_cons, isJsonWs]
  have hnull : nullLit.isPrefixOf ('1' :: (List.replicate m '1' ++ [']'])) = false := rfl
  have htrue : trueLit.isPrefixOf ('1' :: (List.replicate m '1' ++ [']'])) = false := rfl
  have hfalse : falseLit.isPrefixOf ('1' :: (List.replicate m '1' ++ [']'])) = false := rfl
  have hint : lexIntPart ('1' :: (List.replicate m '1' ++ [']'])) =
      some (List.replicate (m + 1) '1', [']']) := by
    rw [← List.cons_append, ← List.replicate_succ]
    exact lexIntPart_digits m
  simp [hdw1, hdw2, hnull, htrue, hfalse, hint, lexFracPart, lexExpPart,
    List.length_replicate, h, hd,
    show ('1' : Char) ≠ lbrace from by decide,
    show ('[' : Char) ≠ lbrace from by decide]

/-- Helper: `json.loads` on `[1…1]` with more digits than the limit
raises the conversion `ValueError`. -/
theorem json_loads_exc_digit_overflow (m : Nat) (h : intMaxStrDigits < m + 1) :
    json_loads_exc (String.mk ('[' :: (List.replicate (m + 1) '1' ++ [']']))) =
      Except.error (PyExc.valueError
        "Exceeds the limit (4300 digits) for integer string conversion") := by
  simp only [json_loads_exc]
  have htl : (String.mk ('[' :: (List.replicate (m + 1) '1' ++ [']']))).toList =
      '[' :: (List.replicate (m + 1) '1' ++ [']']) := rfl
  rw [htl]
  have hfuel : 2 * ('[' :: (List.replicate (m + 1) '1' ++ [']'])).length + 2 =
      (2 * m + 5) + 3 := by
    simp [List.length_replicate]
    omega
  rw [hfuel, topValue_digit_overflow (2 * m + 5) recursionLimit m h
    (by simp [recursionLimit])]

/-- Helper: on the response `[1…1]` with more digits than the limit the
bare pattern matches the whole text, and the escaping `ValueError`
propagates out of the extraction step. -/
theorem parse_exc_digit_overflow (m : Nat) (h : intMaxStrDigits < m + 1) :
    parse_objects_from_response_exc
      (String.mk ('[' :: (List.replicate (m + 1) '1' ++ [']']))) =
      Except.error (PyExc.valueError
        "Exceeds the limit (4300 digits) for integer string conversion") := by
  have htl : (String.mk ('[' :: (List.replicate (m + 1) '1' ++ [']']))).toList =
      '[' :: (List.replicate (m + 1) '1' ++ [']']) := rfl
  have hfen : fencedSearch
      (String.mk ('[' :: (List.replicate (m + 1) '1' ++ [']']))) = none := by
    unfold fencedSearch
    rw [htl, fencedSearchList_eq_none]
    intro hm
    rcases List.mem_cons.mp hm with h1 | h2
    · exact absurd h1 (by decide)
    · rcases List.mem_append.mp h2 with h3 | h4
      · exact absurd (List.eq_of_mem_replicate h3) (by decide)
      · exact absurd (List.mem_singleton.mp h4) (by decide)
  have hbare : bareSearch
      (String.mk ('[' :: (List.replicate (m + 1) '1' ++ [']']))) =
      some (String.mk ('[' :: (List.replicate (m + 1) '1' ++ [']']))) := by
    unfold bareSearch
    rw [htl]
    have hb : bareSearchList ('[' :: (List.replicate (m + 1) '1' ++ [']'])) =
        some ('[' :: (List.replicate (m + 1) '1' ++ [']'])) := by
      simp [bareSearchList,
        bareMiddle_replicate '1' (by decide) (by decide) (m + 1)]
    rw [hb]
  unfold parse_objects_from_response_exc
  rw [hfen, hbare]
  simp only [loads_attempt_exc, json_loads_exc_digit_overflow m h]

/-- Counterexample to C2: on the response `[` followed by 4301 `1` digits
and `]` the bare pattern matches the whole text and `json.loads` raises a
`ValueError` from the integer digit limit, which the
`except (json.JSONDecodeError, AttributeError)` clause does not catch, so
`parse_objects_from_response` raises instead of returning. -/
theorem c2_counterexample :
    parse_objects_from_response_exc
      (String.mk ('[' :: (List.replicate 4301 '1' ++ [']']))) =
      Except.error (PyExc.valueError
        "Exceeds the limit (4300 digits) for integer string conversion") ∧
    (∀ msg, PyExc.valueError
        "Exceeds the limit (4300 digits) for integer string conversion" ≠
      PyExc.jsonDecodeError msg) :=
  ⟨parse_exc_digit_overflow 4300 (by decide), fun msg hmsg => PyExc.noConfusion hmsg⟩

/-- C2 as amended: the extraction step returns the empty list when
neither pattern matches the text and when the text found by the first
matching strategy fails to parse with a `JSONDecodeError`; an exception
escapes the function exactly when `json.loads` on that text raises
something other than a `JSONDecodeError` (a `RecursionError` from deep
nesting or a `ValueError` from the integer digit limit), since the
`except` clause catches only `JSONDecodeError` and `AttributeError`. -/
theorem c2_narrow_except (t : String) :
    (fencedSearch t = none → bareSearch t = none →
      parse_objects_from_response_exc t = Except.ok []) ∧
    (∀ g msg, firstStrategyMatch t = some g →
      json_loads_exc g = Except.error (PyExc.jsonDecodeError msg) →
      parse_objects_from_response_exc t = Except.ok []) ∧
    (∀ e, parse_objects_from_response_exc t = Except.error e →
      (∀ msg, e ≠ PyExc.jsonDecodeError msg) ∧
      ∃ g, firstStrategyMatch t = some g ∧
        json_loads_exc g = Except.error e) := by
  have attempt : ∀ g e, loads_attempt_exc g = Except.error e →
      (∀ msg, e ≠ PyExc.jsonDecodeError msg) ∧
        json_loads_exc g = Except.error e := by
    intro g e he
    unfold loads_attempt_exc at he
    cases hj : json_loads_exc g with
    | ok v =>
      rw [hj] at he
      cases v <;> simp at he
    | error ex =>
      rw [hj] at he
      cases ex with
      | jsonDecodeError msg => simp at he
      | recursionError =>
        cases he
        exact ⟨fun msg hne => PyExc.noConfusion hne, rfl⟩
      | valueError msg =>
        cases he
        exact ⟨fun msg2 hne => PyExc.noConfusion hne, rfl⟩
  refine ⟨?_, ?_, ?_⟩
  · intro hf hb
    simp [parse_objects_from_response_exc, hf, hb]
  · rintro g msg hg he
    unfold firstStrategyMatch at hg
    cases hf : fencedSearch t with
    | some g2 =>
      simp only [hf] at hg
      cases hg
      simp [parse_objects_from_response_exc, hf, loads_attempt_exc, he]
    | none =>
      simp only [hf] at hg
      simp [parse_objects_from_response_exc, hf, hg, loads_attempt_exc, he]
  · intro e he
    unfold parse_objects_from_response_exc at he
    cases hf : fencedSearch t with
    | some g =>
      rw [hf] at he
      exact ⟨(attempt g e he).1, g, by simp [firstStrategyMatch, hf],
        (attempt g e he).2⟩
    | none =>
      rw [hf] at he
      cases hb : bareSearch t with
      | some g =>
        rw [hb] at he
        exact ⟨(attempt g e he).1, g, by simp [firstStrategyMatch, hf, hb],
          (attempt g e he).2⟩
      | none =>
        rw [hb] at he
        cases he

/-- Witness for the amended C2: a response without brackets, and a
response whose matched text fails with a `JSONDecodeError`, both yield
the empty list. -/
theorem c2_narrow_except_witness :
    parse_objects_from_response_exc "no objects detected" = Except.ok [] ∧
    parse_objects_from_response_exc "[a]" = Except.ok [] :=
  ⟨(c2_narrow_except "no objects detected").1 rfl rfl,
   (c2_narrow_except "[a]").2.1 "[a]" "Expecting value" rfl rfl⟩

/-- Counterexample to C3: the extraction step performs no structural
validation, so a response whose array holds bare numbers is returned
as-is, and its first element is not an `object` / `bbox_2d` record. -/
theorem c3_counterexample :
    parse_objects_from_response "[1, 2, 3]" =
      [Json.num "1", Json.num "2", Json.num "3"] ∧
    isDetectionRecord (Json.num "1") = false :=
  ⟨rfl, rfl⟩

/-- C3 as amended: every element of a non-empty extraction result comes
verbatim from the JSON array parsed out of the text found by the first
matching strategy; the step does not check that elements are
`object` / `bbox_2d` records. -/
theorem c3_elements_unvalidated (t : String)
    (h : parse_objects_from_response t ≠ []) :
    ∃ g, firstStrategyMatch t = some g ∧
      json_loads g = Except.ok (Json.arr (parse_objects_from_response t)) := by
  have main : ∀ g, loads_or_empty g ≠ [] →
      json_loads g = Except.ok (Json.arr (loads_or_empty g)) := by
    intro g hne
    cases hj : json_loads g with
    | error e => exact absurd (by simp [loads_or_empty, loads_bracket, hj]) hne
    | ok v =>
      cases v with
      | arr l => simp [loads_or_empty, loads_bracket, hj]
      | null => exact absurd (by simp [loads_or_empty, loads_bracket, hj]) hne
      | bool b => exact absurd (by simp [loads_or_empty, loads_bracket, hj]) hne
      | num lit => exact absurd (by simp [loads_or_empty, loads_bracket, hj]) hne
      | str s => exact absurd (by simp [loads_or_empty, loads_bracket, hj]) hne
      | obj m => exact absurd (by simp [loads_or_empty, loads_bracket, hj]) hne
  cases hf : fencedSearch t with
  | some g =>
    have hpg : parse_objects_from_response t = loads_or_empty g := by
      simp [parse_objects_from_response, hf]
    rw [hpg] at h ⊢
    exact ⟨g, by simp [firstStrategyMatch, hf], main g h⟩
  | none =>
    cases hb : bareSearch t with
    | some g =>
      have hpg : parse_objects_from_response t = loads_or_empty g := by
        simp [parse_objects_from_response, hf, hb]
      rw [hpg] at h ⊢
      exact ⟨g, by simp [firstStrategyMatch, hf, hb], main g h⟩
    | none =>
      exact absurd (by simp [parse_objects_from_response, hf, hb]) h

/-- Witness for the amended C3 at a response holding a plain number. -/
theorem c3_elements_unvalidated_witness :
    ∃ g, firstStrategyMatch "[1]" = some g ∧
      json_loads g = Except.ok (Json.arr (parse_objects_from_response "[1]")) :=
  c3_elements_unvalidated "[1]"
    (fun h => absurd (congrArg List.length h) (by decide))

/-- Response text of C9: a valid JSON array holding one detection record,
with no markdown fence; the nested `bbox_2d` array introduces an inner
closing bracket. -/
def c9Text : String :=
  "[\x7b\"object\": \"cap\", \"bbox_2d\": [1, 2, 3, 4]\x7d]"

/-- Substring of `c9Text` matched by the bare pattern: truncated at the
first closing bracket, the one ending the nested coordinate array. -/
def c9Truncated : String :=
  "[\x7b\"object\": \"cap\", \"bbox_2d\": [1, 2, 3, 4]"

/-- Elements of the JSON array that `c9Text` denotes. -/
def c9Objects : List Json :=
  [Json.obj [("object", Json.str "cap"),
    ("bbox_2d", Json.arr [Json.num "1", Json.num "2", Json.num "3", Json.num "4"])]]

/-- C9: there is a response text that is itself a valid JSON array of
detection records, without a fenced block, on which the extraction step
returns the empty list: the bare pattern matches non-greedily up to the
first closing bracket, and the truncated match is not valid JSON. -/
theorem c9_bare_pattern_truncation :
    json_loads c9Text = Except.ok (Json.arr c9Objects) ∧
    c9Objects.all isDetectionRecord = true ∧
    fencedSearch c9Text = none ∧
    bareSearch c9Text = some c9Truncated ∧
    json_loads c9Truncated = Except.error "Expecting comma delimiter" ∧
    parse_objects_from_response c9Text = [] :=
  ⟨rfl, rfl, rfl, rfl, rfl, rfl⟩

/-- Helper: a string extending a non-empty prefix is non-empty. -/
theorem append_left_ne_empty (a b : String) (h : 0 < a.length) :
    a ++ b ≠ "" := by
  intro heq
  have hlen := congrArg String.length heq
  rw [String.length_append] at hlen
  have h0 : String.length "" = 0 := rfl
  rw [h0] at hlen
  omega

/-- Helper: on a validated request the handler's event trace is exactly
the write of the temporary file, the inference with the request's
parameters, and the deletion of the temporary file, in that order,
whatever the environment does. -/
theorem detect_objects_trace (env : DetectionEnv) (file : UploadFile)
    (request : ObjectDetectionRequest) (ct : String)
    (hct : file.content_type = some ct)
    (hst : startswith ct "image/" = true)
    (hdec : file.decodeResult = Except.ok ()) :
    (detect_objects env file request).2 =
      [FsEvent.writeTemp,
       FsEvent.inference
         { prompt := request.prompt, max_tokens := request.max_tokens,
           temperature := request.temperature },
       FsEvent.deleteTemp] := by
  unfold detect_objects
  simp only [hct, hdec, hst, if_true]
  cases hs : (run_object_detection env
      { prompt := request.prompt, max_tokens := request.max_tokens,
        temperature := request.temperature }).success <;>
    simp [hs]

/-- C6: the detection pipeline is a total function of its environment and
parameters (every exception region is caught); each failure yields
`success := false` with an error message carrying the exception text
under the prefix of its handling region, and otherwise the result is a
success carrying the parsed objects and the raw response text. -/
theorem c6_detection_never_raises (env : DetectionEnv) (p : GenParams) :
    ((run_object_detection env p).success = true ∧
      (run_object_detection env p).objects.isSome = true ∧
      (run_object_detection env p).response_text.isSome = true) ∨
    ((run_object_detection env p).success = false ∧
      ∃ e, (run_object_detection env p).error_message =
          some ("Error loading model: " ++ e) ∨
        (run_object_detection env p).error_message =
          some ("Error during object detection: " ++ e) ∨
        (run_object_detection env p).error_message =
          some ("Error during generation: " ++ e)) := by
  cases hl : env.loadResult with
  | error e =>
    right
    refine ⟨by simp [run_object_detection, hl], e, Or.inl ?_⟩
    simp [run_object_detection, hl]
  | ok u =>
    cases hc : env.configResult with
    | error e =>
      right
      refine ⟨by simp [run_object_detection, hl, hc], e, Or.inr (Or.inl ?_)⟩
      simp [run_object_detection, hl, hc]
    | ok u2 =>
      cases hg : env.generateResult p with
      | error e =>
        right
        refine ⟨by simp [run_object_detection, hl, hc, hg], e,
          Or.inr (Or.inr ?_)⟩
        simp [run_object_detection, hl, hc, hg]
      | ok r =>
        left
        simp [run_object_detection, hl, hc, hg]

/-- C4: a missing or non-`image/` content type, and an upload whose bytes
do not decode as a valid image, are each rejected with an HTTP 400 error
before the temporary file is written or any inference attempted: the
event trace of such a run is empty. -/
theorem c4_validation_rejects (env : DetectionEnv) (file : UploadFile)
    (request : ObjectDetectionRequest) :
    ((file.content_type = none ∨
        ∃ ct, file.content_type = some ct ∧ startswith ct "image/" = false) →
      (detect_objects env file request).1 =
        HandlerOutcome.httpError 400 "File must be an image" ∧
      (detect_objects env file request).2 = []) ∧
    (∀ ct e, file.content_type = some ct → startswith ct "image/" = true →
      file.decodeResult = Except.error e →
      (detect_objects env file request).1 =
        HandlerOutcome.httpError 400 ("Invalid image file: " ++ e) ∧
      (detect_objects env file request).2 = []) := by
  constructor
  · rintro (hct | ⟨ct, hct, hst⟩)
    · constructor <;> simp [detect_objects, hct]
    · constructor <;> simp [detect_objects, hct, hst]
  · intro ct e hct hst hdec
    constructor <;> simp [detect_objects, hct, hst, hdec]

/-- Witness for C4: a missing content type and undecodable bytes are both
answered with HTTP 400. -/
theorem c4_validation_rejects_witness :
    (detect_objects envOk fileNoType ({} : ObjectDetectionRequest)).1 =
      HandlerOutcome.httpError 400 "File must be an image" ∧
    (detect_objects envOk fileBadBytes ({} : ObjectDetectionRequest)).1 =
      HandlerOutcome.httpError 400
        "Invalid image file: cannot identify image file" :=
  ⟨((c4_validation_rejects envOk fileNoType {}).1 (Or.inl rfl)).1,
   ((c4_validation_rejects envOk fileBadBytes {}).2 "image/png"
      "cannot identify image file" rfl rfl rfl).1⟩

/-- Helper: exhaustive shape of a detection result: a success carrying
the parsed objects and the response text, or a failure carrying a
non-empty error message. -/
theorem run_object_detection_cases (env : DetectionEnv) (p : GenParams) :
    (∃ r, run_object_detection env p =
      { success := true, objects := some (parse_objects_from_response r),
        response_text := some r, error_message := none }) ∨
    (∃ m, run_object_detection env p =
      { success := false, objects := none, response_text := none,
        error_message := some m } ∧ m ≠ "") := by
  cases hl : env.loadResult with
  | error e =>
    right
    refine ⟨"Error loading model: " ++ e, by simp [run_object_detection, hl],
      append_left_ne_empty _ _ (by decide)⟩
  | ok u =>
    cases hc : env.configResult with
    | error e =>
      right
      refine ⟨"Error during object detection: " ++ e,
        by simp [run_object_detection, hl, hc],
        append_left_ne_empty _ _ (by decide)⟩
    | ok u2 =>
      cases hg : env.generateResult p with
      | error e =>
        right
        refine ⟨"Error during generation: " ++ e,
          by simp [run_object_detection, hl, hc, hg],
          append_left_ne_empty _ _ (by decide)⟩
      | ok r =>
        left
        exact ⟨r, by simp [run_object_detection, hl, hc, hg]⟩

/-- C5: every validated request is answered with a normal payload that is
either a success carrying the detected objects and the raw response
text, or a failure carrying a non-empty error message; no exception of
the detection pipeline escapes the handler. -/
theorem c5_success_or_message (env : DetectionEnv) (file : UploadFile)
    (request : ObjectDetectionRequest) (ct : String)
    (hct : file.content_type = some ct)
    (hst : startswith ct "image/" = true)
    (hdec : file.decodeResult = Except.ok ()) :
    ∃ resp, (detect_objects env file request).1 = HandlerOutcome.ok resp ∧
      ((resp.success = true ∧ resp.objects.isSome = true ∧
          resp.response_text.isSome = true) ∨
        (resp.success = false ∧ ∃ m, resp.error_message = some m ∧ m ≠ "")) := by
  unfold detect_objects
  simp only [hct, hdec, hst, if_true]
  rcases run_object_detection_cases env
      { prompt := request.prompt, max_tokens := request.max_tokens,
        temperature := request.temperature } with ⟨r, hr⟩ | ⟨m, hr, hm⟩
  · rw [hr]
    exact ⟨_, rfl, Or.inl ⟨rfl, rfl, rfl⟩⟩
  · rw [hr]
    exact ⟨_, rfl, Or.inr ⟨rfl, m, rfl, hm⟩⟩

/-- Witness for C5 at a fully successful environment. -/
theorem c5_success_or_message_witness :
    ∃ resp, (detect_objects envOk fileGood ({} : ObjectDetectionRequest)).1 =
        HandlerOutcome.ok resp ∧
      ((resp.success = true ∧ resp.objects.isSome = true ∧
          resp.response_text.isSome = true) ∨
        (resp.success = false ∧ ∃ m, resp.error_message = some m ∧ m ≠ "")) :=
  c5_success_or_message envOk fileGood {} "image/jpeg" rfl rfl rfl

/-- C7: the three generation parameters are optional and default to the
declared prompt, a 1000-token budget and temperature 0.7 (that is, 7/10
exactly); a validated request that omits them reaches the detection step
with exactly those values, as the inference event of the trace records. -/
theorem c7_default_parameters (env : DetectionEnv) (file : UploadFile)
    (ct : String) (hct : file.content_type = some ct)
    (hst : startswith ct "image/" = true)
    (hdec : file.decodeResult = Except.ok ()) :
    ({} : ObjectDetectionRequest).prompt =
      "detect all the objects like sunglasses, shirts, trousers or watches in the image" ∧
    ({} : ObjectDetectionRequest).max_tokens = 1000 ∧
    ({} : ObjectDetectionRequest).temperature = 7 / 10 ∧
    FsEvent.inference
      { prompt :=
          "detect all the objects like sunglasses, shirts, trousers or watches in the image",
        max_tokens := 1000, temperature := 0.7 } ∈
      (detect_objects env file ({} : ObjectDetectionRequest)).2 := by
  refine ⟨rfl, rfl, by norm_num, ?_⟩
  rw [detect_objects_trace env file {} ct hct hst hdec]
  exact List.Mem.tail _ (List.Mem.head _)

/-- Witness for C7 at a concrete validated upload. -/
theorem c7_default_parameters_witness :
    ({} : ObjectDetectionRequest).prompt =
      "detect all the objects like sunglasses, shirts, trousers or watches in the image" ∧
    ({} : ObjectDetectionRequest).max_tokens = 1000 ∧
    ({} : ObjectDetectionRequest).temperature = 7 / 10 ∧
    FsEvent.inference
      { prompt :=
          "detect all the objects like sunglasses, shirts, trousers or watches in the image",
        max_tokens := 1000, temperature := 0.7 } ∈
      (detect_objects envOk fileGood ({} : ObjectDetectionRequest)).2 :=
  c7_default_parameters envOk fileGood "image/jpeg" rfl rfl rfl

/-- C8: for every validated upload the handler writes the uploaded bytes
to the temporary file and deletes that file before returning, whatever
the detection step does: the event trace is the write, then the
inference, then the deletion. -/
theorem c8_temp_file_lifecycle (env : DetectionEnv) (file : UploadFile)
    (request : ObjectDetectionRequest) (ct : String)
    (hct : file.content_type = some ct)
    (hst : startswith ct "image/" = true)
    (hdec : file.decodeResult = Except.ok ()) :
    (detect_objects env file request).2 =
      [FsEvent.writeTemp,
       FsEvent.inference
         { prompt := request.prompt, max_tokens := request.max_tokens,
           temperature := request.temperature },
       FsEvent.deleteTemp] :=
  detect_objects_trace env file request ct hct hst hdec

/-- Witness for C8 at an environment whose detection step fails. -/
theorem c8_temp_file_lifecycle_witness :
    (detect_objects envLoadFail fileGood ({} : ObjectDetectionRequest)).2 =
      [FsEvent.writeTemp,
       FsEvent.inference
         { prompt :=
             "detect all the objects like sunglasses, shirts, trousers or watches in the image",
           max_tokens := 1000, temperature := 0.7 },
       FsEvent.deleteTemp] :=
  c8_temp_file_lifecycle envLoadFail fileGood {} "image/jpeg" rfl rfl rfl

/-- C10: a validated request whose detection step reports failure is
answered with the failure payload as a normal response, not an HTTP
error; conversely an HTTP error outcome has status 400 and only arises
from the content-type check or the image-decode check. -/
theorem c10_failure_is_normal_response (env : DetectionEnv)
    (file : UploadFile) (request : ObjectDetectionRequest) :
    (∀ ct, file.content_type = some ct → startswith ct "image/" = true →
      file.decodeResult = Except.ok () →
      (run_object_detection env
        { prompt := request.prompt, max_tokens := request.max_tokens,
          temperature := request.temperature }).success = false →
      (detect_objects env file request).1 =
        HandlerOutcome.ok
          { success := false,
            error_message :=
              (run_object_detection env
                { prompt := request.prompt, max_tokens := request.max_tokens,
                  temperature := request.temperature }).error_message }) ∧
    (∀ s d, (detect_objects env file request).1 = HandlerOutcome.httpError s d →
      s = 400 ∧
      (file.content_type = none ∨
        (∃ ct, file.content_type = some ct ∧ startswith ct "image/" = false) ∨
        (∃ e, file.decodeResult = Except.error e))) := by
  constructor
  · intro ct hct hst hdec hfail
    unfold detect_objects
    simp only [hct, hdec, hst, if_true]
    simp [hfail]
  · intro s d hout
    cases hct : file.content_type with
    | none =>
      simp [detect_objects, hct] at hout
      exact ⟨hout.1.symm, Or.inl rfl⟩
    | some ct =>
      cases hs : startswith ct "image/" with
      | false =>
        simp [detect_objects, hct, hs] at hout
        exact ⟨hout.1.symm, Or.inr (Or.inl ⟨ct, rfl, hs⟩)⟩
      | true =>
        cases hdec : file.decodeResult with
        | error e =>
          simp [detect_objects, hct, hs, hdec] at hout
          exact ⟨hout.1.symm, Or.inr (Or.inr ⟨e, rfl⟩)⟩
        | ok u =>
          cases hsucc : (run_object_detection env
              { prompt := request.prompt, max_tokens := request.max_tokens,
                temperature := request.temperature }).success <;>
            simp [detect_objects, hct, hs, hdec, hsucc] at hout

/-- Witness for C10 at an environment whose model load fails. -/
theorem c10_failure_is_normal_response_witness :
    (detect_objects envLoadFail fileGood ({} : ObjectDetectionRequest)).1 =
      HandlerOutcome.ok
        { success := false,
          error_message := some "Error loading model: model not found" } :=
  (c10_failure_is_normal_response envLoadFail fileGood {}).1
    "image/jpeg" rfl rfl rfl rfl
